import Mathlib

/-!
Verification development for the IMUVideo application.

Shallow embedding of the temporal-synchronization and coordinated-update
core of the application (sources: the IMU/CSV state module and the
configuration/render-loop module).  JavaScript numbers are modelled as
rationals (ℚ); JavaScript `null` is modelled with `Option`; the DOM and
host primitives (Chart.js, localStorage's string codec, JSZip,
performance.now, parseFloat) are external collaborators, so their results
enter the definitions as explicit parameters.
-/

namespace IMUVideo

/-! ## Constants (from the configuration module) -/

/-- `const SAMPLE_RATE_HZ = 104` — IMU sample rate in Hz. -/
def SAMPLE_RATE_HZ : ℚ := 104

/-- `const UPLOAD_FRAME_SKIP = 2` — frame skipping for uploaded videos. -/
def UPLOAD_FRAME_SKIP : Nat := 2

/-- `const IMU_UPDATE_THROTTLE_MS = 33` — throttling of IMU chart updates
in the render loop. -/
def IMU_UPDATE_THROTTLE_MS : ℚ := 33

/-! ## JavaScript falsy-coalescing helpers

`x || d` in JavaScript yields `d` when `x` is falsy.  For numbers the
falsy value is `0` (NaN is not representable in ℚ and does not arise in
the modelled flows); for strings it is `""`. -/

/-- JavaScript `x || d` on numbers: `0` is falsy. -/
def jsOrNum (x d : ℚ) : ℚ := if x = 0 then d else x

/-- JavaScript `s || d` on strings: `""` is falsy. -/
def jsOrStr (s d : String) : String := if s = "" then d else s

/-! ## Stream Synchronizer

The synchronizer state is held in the module-level variables
`syncOffset`, `videoMarkedTime` and `dataMarkedTime` of the IMU/CSV
module. -/

/-- The synchronizer's mutable state: `syncOffset` (default 0) and the
two optional marks (`null` when unset). -/
structure SyncState where
  syncOffset : ℚ
  videoMark : Option ℚ
  dataMark : Option ℚ
deriving DecidableEq

/-- The all-null initial synchronizer state (IDLE). -/
def idleSync : SyncState := { syncOffset := 0, videoMark := none, dataMark := none }

/-- The VIDEO_MARKED state with video mark 3, used in concrete inputs. -/
def videoMarked3 : SyncState := { syncOffset := 0, videoMark := some 3, dataMark := none }

/-- Click handler of the mark-video button:
`videoMarkedTime = video.currentTime || 0`.  The current video time is an
input from the host video element. -/
def markVideoClick (currentTime : ℚ) (s : SyncState) : SyncState :=
  { s with videoMark := some (jsOrNum currentTime 0) }

/-- The data-timeline slider handler's assignment
`dataMarkedTime = csvTimesSeconds[idx]`: the data mark is set to the
chosen data time. -/
def setDataMark (t : ℚ) (s : SyncState) : SyncState :=
  { s with dataMark := some t }

/-- Click handler of the mark-data button: requires CSV data
(`if (!csvData || !csvTimesSeconds.length) return;`), then defaults a
still-unset data mark to 0 (`if (dataMarkedTime == null) dataMarkedTime = 0;`). -/
def markDataClick (hasCsvData : Bool) (csvTimes : List ℚ) (s : SyncState) : SyncState :=
  if !hasCsvData || csvTimes.isEmpty then s
  else if s.dataMark = none then { s with dataMark := some 0 }
  else s

/-- `checkSyncReady`: the apply button is enabled
(`canApply`) exactly when both marks are present:
`setSyncBtn.disabled = !(videoMarkedTime != null && dataMarkedTime != null)`. -/
def checkSyncReady (s : SyncState) : Bool :=
  s.videoMark.isSome && s.dataMark.isSome

/-- Error vocabulary used by the specification for the synchronizer. -/
inductive SyncErr
  | preconditionError
deriving DecidableEq

/-- Click handler of the apply-sync button.  The source never throws: the
guard `if (videoMarkedTime == null || dataMarkedTime == null) return;` is
an early `return`, embedded as `.ok (s, false)`.  When both marks are
present it sets `syncOffset = videoMarkedTime - dataMarkedTime`, clears
both marks and triggers a save; the Boolean records whether that apply
transition ran.  The `Except` layer is the observation language for the
specification's `PreconditionError`; the code never produces `.error`. -/
def applySyncClick (s : SyncState) : Except SyncErr (SyncState × Bool) :=
  match s.videoMark, s.dataMark with
  | some v, some d =>
      .ok ({ syncOffset := v - d, videoMark := none, dataMark := none }, true)
  | _, _ => .ok (s, false)

/-! ## Windowed View Computer (`updateChartsForVideoTime`) -/

/-- Observable output of `updateChartsForVideoTime`: the adjusted time
(shown in the data-time display), the x-axis range `[startTime, endTime]`
pushed to the charts, and the marker position in percent. -/
structure WindowView where
  adjustedTime : ℚ
  startTime : ℚ
  endTime : ℚ
  markerPos : ℚ
deriving DecidableEq

/-- `const windowSize = 5` (seconds), local to `updateChartsForVideoTime`. -/
def windowSize : ℚ := 5

/-- `updateChartsForVideoTime(videoTime)`: guards on CSV data being
present (`if (!csvData || !csvTimesSeconds.length) return;`), then
computes `adjustedTime = videoTime - syncOffset`,
`startTime = Math.max(0, adjustedTime - windowSize / 2)`,
`endTime = adjustedTime + windowSize / 2`,
`markerPercent = (adjustedTime - startTime) / (endTime - startTime)` and
`markerPos = Math.min(Math.max(markerPercent * 100, 0), 100)`.
The chart-existence guard is folded into `hasCsvData` (pure DOM
presence). -/
def updateChartsForVideoTime (videoTime syncOffset : ℚ) (hasCsvData : Bool)
    (csvTimes : List ℚ) : Option WindowView :=
  if !hasCsvData || csvTimes.isEmpty then none
  else
    let adjustedTime := videoTime - syncOffset
    let startTime := max 0 (adjustedTime - windowSize / 2)
    let endTime := adjustedTime + windowSize / 2
    let markerPercent := (adjustedTime - startTime) / (endTime - startTime)
    let markerPos := min (max (markerPercent * 100) 0) 100
    some { adjustedTime := adjustedTime, startTime := startTime,
           endTime := endTime, markerPos := markerPos }

/-- The marker position as a fraction of the window width (the source
stores it as a CSS percentage; the fraction is `markerPos / 100`). -/
def markerFraction (w : WindowView) : ℚ := w.markerPos / 100

/-! ## Tracking Loop Controller (`renderFrame`, upload mode)

A tick is one invocation of `renderFrame` in which the media was ready
(the `video.readyState < 2` early reschedule performs no state change).
The pose type is abstract; `infer n` is the (opaque) result
`poses[0] || null` that the external estimator would deliver on the tick
whose `frameIndex` is `n`. -/

/-- The loop's per-frame state: `frameIndex` and `lastPose`. -/
structure LoopState (P : Type) where
  frameIndex : Nat
  lastPose : Option P

/-- One upload-mode tick of `renderFrame`: `frameIndex++`, then
`shouldUpdatePose = frameIndex % UPLOAD_FRAME_SKIP === 0 || !lastPose`;
if so, inference runs and `lastPose = poses[0] || null`, otherwise the
previous `lastPose` is reused verbatim as `poseToDraw`.  The Boolean
records whether inference was invoked on this tick. -/
def renderTick {P : Type} (infer : Nat → Option P) (s : LoopState P) :
    LoopState P × Bool :=
  let fi := s.frameIndex + 1
  if fi % UPLOAD_FRAME_SKIP == 0 || s.lastPose.isNone then
    ({ frameIndex := fi, lastPose := infer fi }, true)
  else
    ({ frameIndex := fi, lastPose := s.lastPose }, false)

/-- The loop state after `n` ticks from the start-of-tracking state
(`frameIndex = 0`, `lastPose = null`, set in `handleStart`). -/
def runTicks {P : Type} (infer : Nat → Option P) : Nat → LoopState P
  | 0 => { frameIndex := 0, lastPose := none }
  | n + 1 => (renderTick infer (runTicks infer n)).1

/-- Concrete inference oracle for concrete loop runs: every invocation
produces a pose (here its own tick number). -/
def someInfer : Nat → Option Nat := fun n => some n

/-! ## Throttled windowed-view updates in the render loop -/

/-- The wall-clock times at which the render loop's throttled IMU-chart
update fires.  Each element of `ticks` is a tick's `performance.now()`
value; `last` is `lastImuUpdateTime` (initially 0).  A tick fires exactly
when `now - lastImuUpdateTime > IMU_UPDATE_THROTTLE_MS`, and firing sets
`lastImuUpdateTime = now`. -/
def throttleFires : List ℚ → ℚ → List ℚ
  | [], _ => []
  | now :: rest, last =>
    if IMU_UPDATE_THROTTLE_MS < now - last then now :: throttleFires rest now
    else throttleFires rest last

/-! ## Project State Store: annotations, persistence, export/import -/

/-- One annotated timestamp:
`{ time: t, label, eventType, notes }` as pushed by the add-timestamp
handler. -/
structure TimestampEntry where
  time : ℚ
  label : String
  eventType : String
  notes : String
deriving DecidableEq

/-- The serialized project aggregate written to `project.json` by
`exportProject` (the two file-name fields are export-only). -/
structure ProjectData where
  syncOffset : ℚ
  timestamps : List TimestampEntry
  sampleRate : ℚ
  createdAt : String
  notes : String
  videoFileName : String
  csvFileName : Option String
deriving DecidableEq

/-- The live state the Project State Store reads and writes: the
module-level `syncOffset` and `timestamps` plus the notes text field. -/
structure AppProjectState where
  syncOffset : ℚ
  timestamps : List TimestampEntry
  notes : String
deriving DecidableEq

/-- The metadata part of `exportProject`: serializes `syncOffset`,
`timestamps`, `sampleRate = SAMPLE_RATE_HZ`, `createdAt`, the notes text
(`value || ""`), a generic `videoFileName` and `csvFileName` (null when
no CSV is loaded).  JSON encoding and the ZIP container are external
codecs. -/
def exportProjectData (s : AppProjectState) (now : String) (hasCsvData : Bool) :
    ProjectData :=
  { syncOffset := s.syncOffset
    timestamps := s.timestamps
    sampleRate := SAMPLE_RATE_HZ
    createdAt := now
    notes := jsOrStr s.notes ""
    videoFileName := "video_from_project.mp4"
    csvFileName := if hasCsvData then some "imu_data.csv" else none }

/-- The metadata application step of `importProject`:
`syncOffset = projectData.syncOffset || 0`,
`timestamps = projectData.timestamps || []` (an array — even an empty
one — is truthy, and the field is always present in an exported bundle,
so the parsed list is taken verbatim), and
`notesInput.value = projectData.notes || ""`.  The import overwrites the
live state wholesale. -/
def importProjectMetadata (p : ProjectData) (s : AppProjectState) :
    AppProjectState :=
  { s with
    syncOffset := jsOrNum p.syncOffset 0
    timestamps := p.timestamps
    notes := jsOrStr p.notes "" }

/-- Error vocabulary used by the specification for annotation deletion. -/
inductive IdxErr
  | indexError
deriving DecidableEq

/-- `deleteTimestamp(index)`: the source guard
`if (index < 0 || index >= timestamps.length) return;` is a silent early
return, embedded as `.ok (ts, false)`; otherwise
`timestamps.splice(index, 1)` removes the element at `index` (modelled as
`take index ++ drop (index + 1)`) and `saveProjectToLocal()` runs.  The
Boolean records whether a save was triggered.  The `Except` layer is the
observation language for the specification's `IndexError`; the code never
produces `.error`. -/
def deleteTimestamp (index : ℤ) (ts : List TimestampEntry) :
    Except IdxErr (List TimestampEntry × Bool) :=
  if index < 0 ∨ (ts.length : ℤ) ≤ index then .ok (ts, false)
  else .ok (ts.take index.toNat ++ ts.drop (index.toNat + 1), true)

/-- A sample annotation entry used in concrete inputs. -/
def ts0 : TimestampEntry := { time := 1, label := "a", eventType := "other", notes := "" }

/-- A second sample annotation entry used in concrete inputs. -/
def ts1 : TimestampEntry := { time := 2, label := "b", eventType := "jump", notes := "n" }

/-! ## CSV parsing (`setupCsvUpload` reader callback)

`parseFloat` is a host primitive; a cell enters the model as
`Option ℚ`: `some q` when the text parses to a finite number `q`, `none`
when it yields NaN/±∞ (non-numeric text, or a missing cell on a short
row, since `values[j]` is then `undefined`). -/

/-- One parsed sample row: for each header (by position `j`)
`row[h] = Number.isFinite(v) ? v : 0` with `v = parseFloat(values[j])`.
The source's `headers.forEach((h, j) => ...)` is modelled by mapping over
the column positions; duplicate header names (which would overwrite in
the source's object) do not arise in the modelled flows. -/
def parseCsvRow (headers : List String) (cells : List (Option ℚ)) :
    List (String × ℚ) :=
  (List.range headers.length).map
    (fun j => (headers.getD j "", (cells.getD j none).getD 0))

/-- The whole parse loop: every non-blank data line becomes a row
(blank lines were already filtered out by
`.filter((l) => l.trim().length)`). -/
def parseCsv (headers : List String) (dataLines : List (List (Option ℚ))) :
    List (List (String × ℚ)) :=
  dataLines.map (parseCsvRow headers)

/-- `csvTimesSeconds = csvData.map((_, idx) => idx / SAMPLE_RATE_HZ)`:
the derived time axis of a parsed sample sequence. -/
def csvTimesSeconds {α : Type} (samples : List α) : List ℚ :=
  (List.range samples.length).map (fun idx : ℕ => (idx : ℚ) / SAMPLE_RATE_HZ)

/-! ## Identity-keyed local persistence -/

/-- `currentVideoFileInfo`: name and byte size of the loaded media. -/
structure VideoFileInfo where
  name : String
  size : Nat
deriving DecidableEq

/-- `getProjectStorageKey()`: null without media identity, otherwise the
template literal `project_${name}_${size}`. -/
def getProjectStorageKey (info : Option VideoFileInfo) : Option String :=
  match info with
  | none => none
  | some fi => some ("project_" ++ fi.name ++ "_" ++ toString fi.size)

/-- The aggregate that `saveProjectToLocal` serializes (its base record,
without the export-only file names; the optional `extra` merge is not
exercised by the modelled flows). -/
structure ProjectLocalData where
  syncOffset : ℚ
  timestamps : List TimestampEntry
  sampleRate : ℚ
  createdAt : String
  notes : String
deriving DecidableEq

/-- `saveProjectToLocal()`: returns silently when no identity key exists;
otherwise `localStorage.setItem(key, JSON.stringify(projectData))`,
overwriting any prior value.  `localStorage` is modelled as a partial map
from keys to stored aggregates (the JSON string codec is external);
`writeOk = false` is the quota-exceeded case, in which `setItem` throws,
the `catch` logs, and the store is left unchanged — the function still
returns normally to the caller (it is total). -/
def saveProjectToLocal (info : Option VideoFileInfo) (s : AppProjectState)
    (now : String) (store : String → Option ProjectLocalData) (writeOk : Bool) :
    String → Option ProjectLocalData :=
  match getProjectStorageKey info with
  | none => store
  | some key =>
    if writeOk then
      fun k => if k = key then
        some { syncOffset := s.syncOffset, timestamps := s.timestamps,
               sampleRate := SAMPLE_RATE_HZ, createdAt := now,
               notes := jsOrStr s.notes "" }
      else store k
    else store

/-! ## Helper lemmas -/

theorem jsOrNum_zero (v : ℚ) : jsOrNum v 0 = v := by
  unfold jsOrNum; split <;> simp_all

theorem jsOrStr_empty (s : String) : jsOrStr s "" = s := by
  unfold jsOrStr; split <;> simp_all

theorem updateCharts_eq (videoTime syncOffset : ℚ) (csvTimes : List ℚ)
    (h : csvTimes.isEmpty = false) :
    updateChartsForVideoTime videoTime syncOffset true csvTimes =
      some { adjustedTime := videoTime - syncOffset,
             startTime := max 0 (videoTime - syncOffset - windowSize / 2),
             endTime := videoTime - syncOffset + windowSize / 2,
             markerPos := min (max ((videoTime - syncOffset -
                 max 0 (videoTime - syncOffset - windowSize / 2)) /
               (videoTime - syncOffset + windowSize / 2 -
                 max 0 (videoTime - syncOffset - windowSize / 2)) * 100) 0) 100 } := by
  simp [updateChartsForVideoTime, h]

theorem clamp_percent_div (f : ℚ) :
    min (max (f * 100) 0) 100 / 100 = min (max f 0) 1 := by
  rcases le_total f 0 with h | h
  · rw [max_eq_right (by linarith), max_eq_right h]
    rw [min_eq_left (by norm_num), min_eq_left (by linarith)]
    norm_num
  · rw [max_eq_left (by linarith), max_eq_left h]
    rcases le_total f 1 with h1 | h1
    · rw [min_eq_left (by linarith), min_eq_left h1]
      field_simp
    · rw [min_eq_right (by linarith), min_eq_right h1]
      norm_num

theorem throttleFires_chain (ticks : List ℚ) :
    ∀ last, List.Chain (fun a b => IMU_UPDATE_THROTTLE_MS < b - a) last
      (throttleFires ticks last) := by
  induction ticks with
  | nil => intro last; exact List.Chain.nil
  | cons now rest ih =>
    intro last
    by_cases h : IMU_UPDATE_THROTTLE_MS < now - last
    · rw [throttleFires, if_pos h]
      exact List.Chain.cons h (ih now)
    · rw [throttleFires, if_neg h]
      exact ih last

theorem throttleFires_0_10_20_40 : throttleFires [0, 10, 20, 40] 0 = [40] := by
  rw [throttleFires, if_neg (by norm_num [IMU_UPDATE_THROTTLE_MS])]
  rw [throttleFires, if_neg (by norm_num [IMU_UPDATE_THROTTLE_MS])]
  rw [throttleFires, if_neg (by norm_num [IMU_UPDATE_THROTTLE_MS])]
  rw [throttleFires, if_pos (by norm_num [IMU_UPDATE_THROTTLE_MS])]
  rw [throttleFires]

theorem length_range_map {β : Type} (f : ℕ → β) (n : ℕ) :
    ((List.range n).map f).length = n := by
  rw [List.length_map, List.length_range]

theorem get?_range_map {β : Type} (f : ℕ → β) (n i : ℕ) (h : i < n) :
    ((List.range n).map f).get? i = some (f i) := by
  rw [List.get?_eq_getElem?, List.getElem?_map, List.getElem?_range h]
  rfl

/-! ## Claims -/

/-- Claim C1: after `markVideo(v)` then `markData(d)`, `apply()` sets the
offset to `v - d` and clears both marks atomically in the same
transition, and the adjusted data time for video time `v`
(`dataTimeFor(v) = v - offset`, the `adjustedTime` of
`updateChartsForVideoTime`) then equals `d`. -/
theorem c1_mark_apply_offset (v d : ℚ) (s : SyncState) (csvTimes : List ℚ)
    (htimes : csvTimes.isEmpty = false) :
    applySyncClick (setDataMark d (markVideoClick v s)) =
      Except.ok ({ syncOffset := v - d, videoMark := none, dataMark := none }, true) ∧
    ∃ w, updateChartsForVideoTime v (v - d) true csvTimes = some w ∧
      w.adjustedTime = d := by
  constructor
  · simp [applySyncClick, setDataMark, markVideoClick, jsOrNum_zero]
  · refine ⟨_, updateCharts_eq v (v - d) csvTimes htimes, ?_⟩
    simp

/-- Witness for claim C1 at `v = 3`, `d = 1`, starting from the IDLE
state with a one-sample time series. -/
theorem c1_mark_apply_offset_witness :
    applySyncClick (setDataMark 1 (markVideoClick 3 idleSync)) =
      Except.ok ({ syncOffset := 3 - 1, videoMark := none, dataMark := none }, true) ∧
    ∃ w, updateChartsForVideoTime 3 (3 - 1) true [0] = some w ∧
      w.adjustedTime = 1 :=
  c1_mark_apply_offset 3 1 idleSync [0] rfl

/-- Claim C2: for every `videoTime`, `offset` and non-empty time series,
the windowed view yields `adjustedTime = videoTime - offset`,
`visibleStart = max 0 (adjustedTime - windowSize/2)`,
`visibleEnd = adjustedTime + windowSize/2` (independent of the series, so
no upper clamp), and
`markerFraction = clamp ((adjustedTime - visibleStart)/(visibleEnd - visibleStart)) 0 1`;
in particular `videoTime = 10`, `offset = 4.2` yields
`adjustedTime = 5.8`, `visibleStart = 3.3`, `visibleEnd = 8.3` and
`markerFraction = 0.5`. -/
theorem c2_windowed_view (videoTime syncOffset : ℚ) (csvTimes : List ℚ)
    (htimes : csvTimes.isEmpty = false) :
    (∃ w, updateChartsForVideoTime videoTime syncOffset true csvTimes = some w ∧
      w.adjustedTime = videoTime - syncOffset ∧
      w.startTime = max 0 (w.adjustedTime - windowSize / 2) ∧
      w.endTime = w.adjustedTime + windowSize / 2 ∧
      markerFraction w =
        min (max ((w.adjustedTime - w.startTime) / (w.endTime - w.startTime)) 0) 1) ∧
    (∃ w, updateChartsForVideoTime 10 (21 / 5) true csvTimes = some w ∧
      w.adjustedTime = 29 / 5 ∧ w.startTime = 33 / 10 ∧ w.endTime = 83 / 10 ∧
      markerFraction w = 1 / 2) := by
  constructor
  · refine ⟨_, updateCharts_eq videoTime syncOffset csvTimes htimes, ?_, ?_, ?_, ?_⟩
    · simp
    · simp
    · simp
    · simp [markerFraction, clamp_percent_div]
  · have e1 : (10 : ℚ) - 21 / 5 = 29 / 5 := by norm_num
    have e2 : max 0 ((10 : ℚ) - 21 / 5 - windowSize / 2) = 33 / 10 := by
      rw [max_eq_right (by norm_num [windowSize])]
      norm_num [windowSize]
    have e3 : (10 : ℚ) - 21 / 5 + windowSize / 2 = 83 / 10 := by norm_num [windowSize]
    have e4 : min (max (((10 : ℚ) - 21 / 5 - max 0 (10 - 21 / 5 - windowSize / 2)) /
        (10 - 21 / 5 + windowSize / 2 - max 0 (10 - 21 / 5 - windowSize / 2)) * 100) 0)
        100 = 50 := by
      rw [e2, e3]
      rw [show (10 : ℚ) - 21 / 5 - 33 / 10 = 5 / 2 by norm_num]
      rw [show (83 : ℚ) / 10 - 33 / 10 = 5 by norm_num]
      rw [show (5 : ℚ) / 2 / 5 * 100 = 50 by norm_num]
      rw [max_eq_left (by norm_num), min_eq_left (by norm_num)]
    refine ⟨⟨29 / 5, 33 / 10, 83 / 10, 50⟩, ?_, rfl, rfl, rfl,
      by norm_num [markerFraction]⟩
    rw [updateCharts_eq 10 (21 / 5) csvTimes htimes]
    simp only [Option.some.injEq, WindowView.mk.injEq]
    exact ⟨e1, e2, e3, e4⟩

/-- Witness for claim C2 with the one-sample time series `[0]`. -/
theorem c2_windowed_view_witness :
    (∃ w, updateChartsForVideoTime 10 (21 / 5) true [0] = some w ∧
      w.adjustedTime = 10 - 21 / 5 ∧
      w.startTime = max 0 (w.adjustedTime - windowSize / 2) ∧
      w.endTime = w.adjustedTime + windowSize / 2 ∧
      markerFraction w =
        min (max ((w.adjustedTime - w.startTime) / (w.endTime - w.startTime)) 0) 1) ∧
    (∃ w, updateChartsForVideoTime 10 (21 / 5) true [0] = some w ∧
      w.adjustedTime = 29 / 5 ∧ w.startTime = 33 / 10 ∧ w.endTime = 83 / 10 ∧
      markerFraction w = 1 / 2) :=
  c2_windowed_view 10 (21 / 5) [0] rfl

/-- Claim C3: in upload mode with `skipInterval = UPLOAD_FRAME_SKIP = 2`,
each tick increments `frameIndex` once; inference is invoked exactly when
`frameIndex % skipInterval == 0` or no prior result exists; on a tick
without inference the previous result is reused verbatim; and when tick 2
produced a result, tick 3 invokes no inference and displays exactly the
result computed on tick 2. -/
theorem c3_frame_skip {P : Type} (infer : Nat → Option P) (s : LoopState P)
    (h2 : (infer 2).isSome = true) :
    (renderTick infer s).1.frameIndex = s.frameIndex + 1 ∧
    ((renderTick infer s).2 = true ↔
      ((s.frameIndex + 1) % UPLOAD_FRAME_SKIP = 0 ∨ s.lastPose = none)) ∧
    ((renderTick infer s).2 = false →
      (renderTick infer s).1.lastPose = s.lastPose) ∧
    (renderTick infer (runTicks infer 2)).2 = false ∧
    (runTicks infer 3).lastPose = infer 2 := by
  obtain ⟨p, hp⟩ := Option.isSome_iff_exists.mp h2
  have t2 : runTicks infer 2 = { frameIndex := 2, lastPose := infer 2 } := by
    show (renderTick infer (runTicks infer 1)).1 = _
    rw [show runTicks infer 1 = { frameIndex := 1, lastPose := infer 1 } from rfl]
    simp [renderTick, UPLOAD_FRAME_SKIP]
  have t3 : renderTick infer (runTicks infer 2) =
      ({ frameIndex := 3, lastPose := infer 2 }, false) := by
    rw [t2]
    simp [renderTick, hp, UPLOAD_FRAME_SKIP]
  refine ⟨?_, ?_, ?_, ?_, ?_⟩
  · by_cases h : ((s.frameIndex + 1) % UPLOAD_FRAME_SKIP == 0 || s.lastPose.isNone) = true
    · simp [renderTick, h]
    · simp [renderTick, h]
  · by_cases h : ((s.frameIndex + 1) % UPLOAD_FRAME_SKIP == 0 || s.lastPose.isNone) = true
    · rw [show (renderTick infer s).2 = true from by simp [renderTick, h]]
      simpa [Option.isNone_iff_eq_none] using h
    · rw [show (renderTick infer s).2 = false from by simp [renderTick, h]]
      simp only [Bool.or_eq_true, beq_iff_eq, Option.isNone_iff_eq_none] at h
      simp [h]
  · by_cases h : ((s.frameIndex + 1) % UPLOAD_FRAME_SKIP == 0 || s.lastPose.isNone) = true
    · simp [renderTick, h]
    · simp [renderTick, h]
  · rw [t3]
  · show (renderTick infer (runTicks infer 2)).1.lastPose = infer 2
    rw [t3]

/-- Witness for claim C3 on the concrete oracle `someInfer` from the
start-of-tracking state. -/
theorem c3_frame_skip_witness :
    (renderTick someInfer (runTicks someInfer 0)).1.frameIndex =
      (runTicks someInfer 0).frameIndex + 1 ∧
    ((renderTick someInfer (runTicks someInfer 0)).2 = true ↔
      (((runTicks someInfer 0).frameIndex + 1) % UPLOAD_FRAME_SKIP = 0 ∨
        (runTicks someInfer 0).lastPose = none)) ∧
    ((renderTick someInfer (runTicks someInfer 0)).2 = false →
      (renderTick someInfer (runTicks someInfer 0)).1.lastPose =
        (runTicks someInfer 0).lastPose) ∧
    (renderTick someInfer (runTicks someInfer 2)).2 = false ∧
    (runTicks someInfer 3).lastPose = someInfer 2 :=
  c3_frame_skip someInfer (runTicks someInfer 0) rfl

/-- Counterexample to claim C4: with ticks at wall-clock 0ms, 10ms, 20ms,
40ms and the initial throttle state `lastImuUpdateTime = 0`, the
windowed-view update fires at 40ms only — not at 0ms and 40ms as
claimed, because the tick at 0ms has `now - lastImuUpdateTime = 0`,
which is not strictly greater than 33. -/
theorem c4_counterexample :
    throttleFires [0, 10, 20, 40] 0 = [40] ∧
    throttleFires [0, 10, 20, 40] 0 ≠ [0, 40] := by
  refine ⟨throttleFires_0_10_20_40, ?_⟩
  rw [throttleFires_0_10_20_40]
  intro hc
  exact absurd (List.head_eq_of_cons_eq hc) (by norm_num)

/-- Claim C4 (amended): consecutive firings of the throttled
windowed-view update are separated by strictly more than
`IMU_UPDATE_THROTTLE_MS = 33` milliseconds of wall-clock time (so it
fires at most once per 33ms), and for ticks at 0ms, 10ms, 20ms, 40ms
from the initial throttle state the update fires at 40ms only. -/
theorem c4_throttle_amended (ticks : List ℚ) (last : ℚ) :
    List.Chain' (fun a b => IMU_UPDATE_THROTTLE_MS < b - a)
      (throttleFires ticks last) ∧
    throttleFires [0, 10, 20, 40] 0 = [40] := by
  constructor
  · have h := throttleFires_chain ticks last
    cases hout : throttleFires ticks last with
    | nil => exact List.chain'_nil
    | cons b l =>
      rw [hout] at h
      cases h with
      | cons hr htail => exact htail
  · exact throttleFires_0_10_20_40

/-- Claim C5 counterexample: `apply()` in the IDLE state (both marks
absent) does not fail with `PreconditionError`; the handler returns
silently (`.ok`) with the state unchanged and no apply transition. -/
theorem c5_counterexample :
    applySyncClick idleSync ≠ Except.error SyncErr.preconditionError ∧
    applySyncClick idleSync = Except.ok (idleSync, false) := by
  constructor
  · intro h
    exact Except.noConfusion h
  · rfl

/-- Claim C5 (amended): `canApply` (the enabled state computed by
`checkSyncReady`) is true exactly when both the video mark and the data
mark are present — false whenever either is `null`, true only with both
set — and calling `apply()` with either mark absent is a silent no-op:
it raises no error and returns the state unchanged with no apply
transition (and hence no save). -/
theorem c5_can_apply_amended (s : SyncState) :
    (checkSyncReady s = true ↔ (s.videoMark ≠ none ∧ s.dataMark ≠ none)) ∧
    ((s.videoMark = none ∨ s.dataMark = none) →
      applySyncClick s = Except.ok (s, false)) := by
  constructor
  · simp [checkSyncReady, Option.isSome_iff_ne_none]
  · intro h
    match hv : s.videoMark, hd : s.dataMark with
    | none, _ => simp [applySyncClick, hv]
    | some v, none => simp [applySyncClick, hv, hd]
    | some v, some d => simp_all

/-- Witness for claim C5 (amended) at the VIDEO_MARKED state
`(videoMark = 3, dataMark = null)`. -/
theorem c5_can_apply_amended_witness :
    applySyncClick videoMarked3 = Except.ok (videoMarked3, false) :=
  (c5_can_apply_amended videoMarked3).2 (Or.inr rfl)

/-- Claim C6: importing the result of exporting a project restores the
same `syncOffset`, the same timestamps sequence (same length and
elementwise the same entries, hence the same time, label, eventType and
notes), the same notes string, and the exported bundle carries
`sampleRate = SAMPLE_RATE_HZ`, the sample rate in force after import. -/
theorem c6_round_trip (s target : AppProjectState) (now : String) (hasCsv : Bool) :
    (importProjectMetadata (exportProjectData s now hasCsv) target).syncOffset =
      s.syncOffset ∧
    (importProjectMetadata (exportProjectData s now hasCsv) target).timestamps =
      s.timestamps ∧
    (importProjectMetadata (exportProjectData s now hasCsv) target).timestamps.length =
      s.timestamps.length ∧
    (∀ i : Nat,
      (importProjectMetadata (exportProjectData s now hasCsv) target).timestamps.get? i =
        s.timestamps.get? i) ∧
    (importProjectMetadata (exportProjectData s now hasCsv) target).notes = s.notes ∧
    (exportProjectData s now hasCsv).sampleRate = SAMPLE_RATE_HZ := by
  refine ⟨?_, rfl, rfl, fun i => rfl, ?_, rfl⟩
  · show jsOrNum s.syncOffset 0 = s.syncOffset
    exact jsOrNum_zero s.syncOffset
  · show jsOrStr (jsOrStr s.notes "") "" = s.notes
    rw [jsOrStr_empty, jsOrStr_empty]

/-- Claim C7 counterexample: deleting index `-1` from a one-element
annotation sequence does not raise `IndexError`; the handler returns
silently with the sequence unchanged and no save triggered. -/
theorem c7_counterexample :
    deleteTimestamp (-1) [ts0] ≠ Except.error IdxErr.indexError ∧
    deleteTimestamp (-1) [ts0] = Except.ok ([ts0], false) := by
  have h : deleteTimestamp (-1) [ts0] = Except.ok ([ts0], false) := by
    rw [deleteTimestamp, if_pos (Or.inl (by norm_num))]
  exact ⟨by rw [h]; intro hc; exact Except.noConfusion hc, h⟩

/-- Claim C7 (amended): for an out-of-bounds index (negative or at least
the length) `deleteTimestamp` is a silent no-op — no error, the sequence
unchanged, no save; for an in-bounds index it removes exactly the element
at that index (entries below keep their positions, entries above shift
down by one, the length drops by one) and triggers a save. -/
theorem c7_delete_amended (index : ℤ) (ts : List TimestampEntry) :
    ((index < 0 ∨ (ts.length : ℤ) ≤ index) →
      deleteTimestamp index ts = Except.ok (ts, false)) ∧
    (0 ≤ index → index < (ts.length : ℤ) →
      ∃ ts2, deleteTimestamp index ts = Except.ok (ts2, true) ∧
        ts2.length + 1 = ts.length ∧
        (∀ j : Nat, j < index.toNat → ts2.get? j = ts.get? j) ∧
        (∀ j : Nat, index.toNat ≤ j → ts2.get? j = ts.get? (j + 1))) := by
  constructor
  · intro h
    rw [deleteTimestamp, if_pos h]
  · intro h0 hlen
    have hn : index.toNat < ts.length := by omega
    have hnot : ¬(index < 0 ∨ (ts.length : ℤ) ≤ index) := by omega
    have htake : (ts.take index.toNat).length = index.toNat :=
      List.length_take_of_le (le_of_lt hn)
    refine ⟨ts.take index.toNat ++ ts.drop (index.toNat + 1),
      by rw [deleteTimestamp, if_neg hnot], ?_, ?_, ?_⟩
    · rw [List.length_append, htake, List.length_drop]
      omega
    · intro j hj
      rw [List.get?_append (by omega), List.get?_take hj]
    · intro j hj
      rw [List.get?_append_right (by omega), htake, List.get?_drop]
      congr 1
      omega

/-- Witness for claim C7 (amended): deleting index 0 from `[ts0, ts1]`
removes exactly the first element and triggers a save. -/
theorem c7_delete_amended_witness :
    ∃ ts2, deleteTimestamp 0 [ts0, ts1] = Except.ok (ts2, true) ∧
      ts2.length + 1 = [ts0, ts1].length ∧
      (∀ j : Nat, j < (0 : ℤ).toNat → ts2.get? j = [ts0, ts1].get? j) ∧
      (∀ j : Nat, (0 : ℤ).toNat ≤ j → ts2.get? j = [ts0, ts1].get? (j + 1)) :=
  (c7_delete_amended 0 [ts0, ts1]).2 (by norm_num) (by norm_num)

/-- Claim C8: a field that does not parse as a finite number is stored as
0 and never drops its row or fails the parse — every data line yields a
row with one value per header column, the row with the malformed field is
included, and the derived time axis satisfies
`times.length = samples.length` with `times[i] = i / SAMPLE_RATE_HZ`. -/
theorem c8_malformed_field (headers : List String) (cells : List (Option ℚ))
    (dataLines : List (List (Option ℚ))) (j : Nat) (hj : j < headers.length)
    (hcell : cells.getD j none = none) :
    (parseCsvRow headers cells).get? j = some (headers.getD j "", 0) ∧
    (parseCsvRow headers cells).length = headers.length ∧
    parseCsv headers (cells :: dataLines) =
      parseCsvRow headers cells :: parseCsv headers dataLines ∧
    (parseCsv headers dataLines).length = dataLines.length ∧
    (csvTimesSeconds (parseCsv headers dataLines)).length =
      (parseCsv headers dataLines).length ∧
    (∀ i : Nat, i < dataLines.length →
      (csvTimesSeconds (parseCsv headers dataLines)).get? i =
        some ((i : ℚ) / SAMPLE_RATE_HZ)) := by
  refine ⟨?_, ?_, rfl, ?_, ?_, ?_⟩
  · have h1 := get?_range_map
      (fun j2 => (headers.getD j2 "", (cells.getD j2 none).getD 0))
      headers.length j hj
    rw [parseCsvRow, h1]
    show some (headers.getD j "", (cells.getD j none).getD 0) = _
    rw [hcell]
    rfl
  · rw [parseCsvRow]
    exact length_range_map _ _
  · simp [parseCsv]
  · rw [csvTimesSeconds]
    exact length_range_map _ _
  · intro i hi
    have hlen : i < (parseCsv headers dataLines).length := by
      simpa [parseCsv] using hi
    rw [csvTimesSeconds]
    exact get?_range_map _ _ _ hlen

/-- Witness for claim C8: a single-column header with one data row whose
only field is malformed parses to the row `[("ax", 0)]` and the time axis
`[0 / SAMPLE_RATE_HZ]`. -/
theorem c8_malformed_field_witness :
    (parseCsvRow ["ax"] [none]).get? 0 = some (["ax"].getD 0 "", 0) ∧
    (parseCsvRow ["ax"] [none]).length = ["ax"].length ∧
    parseCsv ["ax"] ([none] :: [[some 1]]) =
      parseCsvRow ["ax"] [none] :: parseCsv ["ax"] [[some 1]] ∧
    (parseCsv ["ax"] [[some 1]]).length = [[some (1 : ℚ)]].length ∧
    (csvTimesSeconds (parseCsv ["ax"] [[some 1]])).length =
      (parseCsv ["ax"] [[some 1]]).length ∧
    (∀ i : Nat, i < [[some (1 : ℚ)]].length →
      (csvTimesSeconds (parseCsv ["ax"] [[some 1]])).get? i =
        some ((i : ℚ) / SAMPLE_RATE_HZ)) :=
  c8_malformed_field ["ax"] [none] [[some 1]] 0 (by norm_num) rfl

/-- Claim C9: without a media identity, save leaves storage unchanged
(and, being a total function, returns to the caller); with identity
`(name, size)` and a successful write it stores the serialized aggregate
under exactly `"project_" ++ name ++ "_" ++ size`, overwriting whatever
was there, and touches no other key; a failed write (quota) leaves
storage unchanged and still returns. -/
theorem c9_save_identity_key (info : Option VideoFileInfo) (s : AppProjectState)
    (now : String) (store : String → Option ProjectLocalData) (writeOk : Bool) :
    (info = none → saveProjectToLocal info s now store writeOk = store) ∧
    (∀ fi, info = some fi → writeOk = true →
      saveProjectToLocal info s now store writeOk
          ("project_" ++ fi.name ++ "_" ++ toString fi.size) =
        some { syncOffset := s.syncOffset, timestamps := s.timestamps,
               sampleRate := SAMPLE_RATE_HZ, createdAt := now,
               notes := jsOrStr s.notes "" } ∧
      (∀ k, k ≠ "project_" ++ fi.name ++ "_" ++ toString fi.size →
        saveProjectToLocal info s now store writeOk k = store k)) ∧
    (writeOk = false → saveProjectToLocal info s now store writeOk = store) := by
  refine ⟨?_, ?_, ?_⟩
  · intro h
    rw [h]
    rfl
  · intro fi hfi hw
    subst hfi
    subst hw
    constructor
    · simp [saveProjectToLocal, getProjectStorageKey]
    · intro k hk
      simp [saveProjectToLocal, getProjectStorageKey, hk]
  · intro hw
    subst hw
    cases info with
    | none => rfl
    | some fi => simp [saveProjectToLocal, getProjectStorageKey]

/-- Witness for claim C9 with identity `("vid.mp4", 7)` over the empty
store: the aggregate lands under `project_vid.mp4_7`. -/
theorem c9_save_identity_key_witness :
    saveProjectToLocal (some { name := "vid.mp4", size := 7 })
        { syncOffset := 2, timestamps := [], notes := "hello" } "2026-01-01"
        (fun _ => none) true "project_vid.mp4_7" =
      some { syncOffset := 2, timestamps := [], sampleRate := SAMPLE_RATE_HZ,
             createdAt := "2026-01-01",
             notes := jsOrStr "hello" "" } :=
  ((c9_save_identity_key (some { name := "vid.mp4", size := 7 })
      { syncOffset := 2, timestamps := [], notes := "hello" } "2026-01-01"
      (fun _ => none) true).2.1 { name := "vid.mp4", size := 7 } rfl rfl).1

/-- Claim C10: with CSV data loaded and the data mark still unset, the
mark-data click defaults the data mark to 0 (the start of the sensor
timeline) instead of failing or leaving it unset; a subsequent apply
with a video mark `v` yields offset `v - 0`. -/
theorem c10_default_data_mark (s : SyncState) (csvTimes : List ℚ) (v : ℚ)
    (htimes : csvTimes.isEmpty = false) (hdm : s.dataMark = none)
    (hvm : s.videoMark = some v) :
    (markDataClick true csvTimes s).dataMark = some 0 ∧
    applySyncClick (markDataClick true csvTimes s) =
      Except.ok ({ syncOffset := v - 0, videoMark := none, dataMark := none },
        true) := by
  have hm : markDataClick true csvTimes s = { s with dataMark := some 0 } := by
    rw [markDataClick]
    rw [if_neg (by simp [htimes])]
    rw [if_pos hdm]
  rw [hm]
  exact ⟨rfl, by simp [applySyncClick, hvm]⟩

/-- Witness for claim C10 at the VIDEO_MARKED state with video mark 3 and
a one-sample time series. -/
theorem c10_default_data_mark_witness :
    (markDataClick true [0] videoMarked3).dataMark = some 0 ∧
    applySyncClick (markDataClick true [0] videoMarked3) =
      Except.ok ({ syncOffset := 3 - 0, videoMark := none, dataMark := none }, true) :=
  c10_default_data_mark videoMarked3 [0] 3 rfl rfl rfl

end IMUVideo
